import Mathlib

set_option autoImplicit false

namespace BlueAir

/-! Shallow embedding of the blueairaws-client TypeScript sources
(src/Consts.ts, src/BlueAirAwsClient.ts, src/GigyaApi.ts).  Pure data and
control flow are translated directly; network responses are supplied through
explicit environment records, and each operation returns the list of outbound
requests it issued alongside its result and the updated client state. -/

/-- The `Region` enumeration from Consts.ts. -/
inductive Region where
  | EU
  | AU
  | CN
  | RU
  | US
deriving DecidableEq, Repr

/-- The string value of each `Region` enum member (the member name itself,
since Consts.ts declares for example `EU = 'EU'`). -/
def regionName : Region → String
  | .EU => "EU"
  | .AU => "AU"
  | .CN => "CN"
  | .RU => "RU"
  | .US => "US"

/-- The `RegionMap` object from Consts.ts, mapping a `Region` to its
two-letter region code. -/
def RegionMap : Region → String
  | .US => "us"
  | .CN => "cn"
  | .EU => "eu"
  | .AU => "au"
  | .RU => "ru"

/-- The entries of `RegionMap` in source (insertion) order, as produced by
`Object.entries(RegionMap)` in JavaScript. -/
def RegionMapEntries : List (Region × String) :=
  [(.US, "us"), (.CN, "cn"), (.EU, "eu"), (.AU, "au"), (.RU, "ru")]

/-- The `AWSConfigValue` record type from Consts.ts. -/
structure AWSConfigValue where
  restApiId : String
  awsRegion : String
deriving DecidableEq, Repr

/-- JavaScript property read `value.regionCode`.  The `AWSConfigValue` type
declared in Consts.ts has only the fields `restApiId` and `awsRegion`, so in
the running program this property access evaluates to `undefined`. -/
def regionCodeField (_ : AWSConfigValue) : Option String := none

/-- The `AWS_CONFIG` table from Consts.ts as a key-value list in source
order. -/
def AWS_CONFIG_entries : List (String × AWSConfigValue) :=
  [("us", { restApiId := "on1keymlmh", awsRegion := "us-east-2" }),
   ("eu", { restApiId := "hkgmr8v960", awsRegion := "eu-west-1" }),
   ("cn", { restApiId := "ftbkyp79si", awsRegion := "cn-north-1" }),
   ("au", { restApiId := "3lcm4dxjhk", awsRegion := "ap-southeast-2" }),
   ("ru", { restApiId := "f3g4h7ik0l", awsRegion := "eu-central-1" })]

/-- Indexed access `AWS_CONFIG[key]`; absent keys yield `undefined`. -/
def AWS_CONFIG (key : String) : Option AWSConfigValue :=
  AWS_CONFIG_entries.lookup key

/-- The `GigyaConfigValue` record type from Consts.ts. -/
structure GigyaConfigValue where
  gigyaRegion : String
  apiKey : String
deriving DecidableEq, Repr

/-- The `GIGYA_CONFIG` table from Consts.ts as a key-value list in source
order.  The api keys are the literal constants from the source. -/
def GIGYA_CONFIG_entries : List (String × GigyaConfigValue) :=
  [("us", { gigyaRegion := "us1",
            apiKey := "3_-xUbbrIY8QCbHDWQs1tLXE-CZBQ50SGElcOY5hF1euE11wCoIlNbjMGAFQ6UwhMY" }),
   ("eu", { gigyaRegion := "eu1",
            apiKey := "3_qRseYzrUJl1VyxvSJANalu_kNgQ83swB1B9uzgms58--5w1ClVNmrFdsDnWVQQCl" }),
   ("cn", { gigyaRegion := "cn1",
            apiKey := "3_h3UEfJnA-zDpFPR9L4412HO7Mz2VVeN4wprbWYafPN1gX0kSnLcZ9VSfFi7bEIIU" }),
   ("au", { gigyaRegion := "au1",
            apiKey := "3_Z2N0mIFC6j2fx1z2sq76R3pwkCMaMX2y9btPb0_PgI_3wfjSJoofFnBbxbtuQksN" }),
   ("ru", { gigyaRegion := "ru1",
            apiKey := "3_wYhHEBaOcS_w6idVM3mh8UjyjOP-3Dwn3w9Z6AYc0FhGf-uIwUkrcoCdsYarND2k" })]

/-- Indexed access `GIGYA_CONFIG[key]`. -/
def GIGYA_CONFIG (key : String) : Option GigyaConfigValue :=
  GIGYA_CONFIG_entries.lookup key

/-- One entry of the derived `BLUEAIR_CONFIG` table.  The fields are `Option`
valued because in JavaScript the reduce step stores whatever
`AWS_CONFIG[regionCode]` and `GIGYA_CONFIG[regionCode]` evaluate to, which
would be `undefined` for a missing key. -/
structure APIConfigEntry where
  awsConfig : Option AWSConfigValue
  gigyaConfig : Option GigyaConfigValue
deriving DecidableEq, Repr

/-- JavaScript object assignment `obj[k] = v` on an association list:
overwrite an existing binding in place, otherwise append a new one. -/
def setKey {α : Type} (l : List (String × α)) (k : String) (v : α) :
    List (String × α) :=
  if l.any (fun p => p.1 == k) then
    l.map (fun p => if p.1 == k then (k, v) else p)
  else
    l ++ [(k, v)]

/-- The `BLUEAIR_CONFIG` table from Consts.ts, built by reducing over the
keys of `RegionMap` exactly as the source does. -/
def BLUEAIR_CONFIG_entries : List (String × APIConfigEntry) :=
  RegionMapEntries.foldl
    (fun acc kv =>
      setKey acc kv.2 { awsConfig := AWS_CONFIG kv.2, gigyaConfig := GIGYA_CONFIG kv.2 })
    []

/-- Indexed access `BLUEAIR_CONFIG[key]`. -/
def BLUEAIR_CONFIG (key : String) : Option APIConfigEntry :=
  BLUEAIR_CONFIG_entries.lookup key

/-- The `LOGIN_EXPIRATION` constant from Consts.ts: 24 hours in
milliseconds. -/
def LOGIN_EXPIRATION : Int := 3600 * 1000 * 24

/-- The `BLUEAIR_API_TIMEOUT` constant from Consts.ts: 5 seconds in
milliseconds. -/
def BLUEAIR_API_TIMEOUT : Int := 5 * 1000

/-- Strict equality `code === regionCode` between a JavaScript string and a
possibly undefined value: comparing a string against `undefined` is `false`. -/
def jsStrictEqStr (u : Option String) (s : String) : Bool :=
  match u with
  | none => false
  | some t => t == s

/-- The private method `BlueAirAwsClient.mapAwsRegionToRegion` from
src/BlueAirAwsClient.ts.  It first reads `AWS_CONFIG[awsRegion]` (keyed by the
two-letter codes, not by AWS region tokens), then reads the nonexistent
`regionCode` property of the entry and searches `RegionMap` for it. -/
def mapAwsRegionToRegion (awsRegion : String) : Except String Region :=
  match AWS_CONFIG awsRegion with
  | none => .error ("No region mapping found for AWS region: " ++ awsRegion)
  | some regionEntry =>
    let regionCode := regionCodeField regionEntry
    match RegionMapEntries.find? (fun p => jsStrictEqStr regionCode p.2) with
    | some p => .ok p.1
    | none => .error ("Unable to map AWS region to Region enum: " ++ awsRegion)

/-- JavaScript truthiness of a possibly undefined string: `undefined` and the
empty string are falsy, every other string is truthy.  Used for the guards
`if (!response.id_token)` and `if (!response.access_token)`. -/
def truthyStr (o : Option String) : Option String :=
  match o with
  | none => none
  | some s => if s == "" then none else some s

/-- The `sessionInfo` object of a Gigya `accounts.login` response. -/
structure GigyaSessionInfo where
  sessionToken : String
  sessionSecret : String
deriving DecidableEq, Repr

/-- One outbound HTTP request issued by the client, identified by its
endpoint. -/
inductive NetCall where
  /-- POST `{gigyaApiUrl}/accounts.login` issued by `GigyaApi.getGigyaSession`. -/
  | gigyaLogin
  /-- POST `{gigyaApiUrl}/accounts.getJWT` issued by `GigyaApi.getGigyaJWT`. -/
  | gigyaJWT
  /-- POST `{blueAirApiUrl}/login` issued by `getAwsAccessToken`. -/
  | cloudLogin
  /-- GET `{blueAirApiUrl}/registered-devices` issued by `getDevices`. -/
  | registeredDevices
  /-- POST `{blueAirApiUrl}/{accountuuid}/r/initial` issued by `getDeviceStatus`. -/
  | deviceStatusQuery (accountuuid : String)
  /-- POST `{blueAirApiUrl}/{uuid}/a/{state}` issued by `setDeviceStatus`. -/
  | deviceSet (uuid : String) (state : String)
deriving DecidableEq, Repr

/-- The mutable fields of a `BlueAirAwsClient` instance that the login
pipeline touches: `_authToken` (initially `null`) and `last_login`
(initially `0`). -/
structure ClientState where
  _authToken : Option String
  last_login : Int
deriving DecidableEq, Repr

/-- The responses the external services would return to the login pipeline
and the device operations, supplied as an explicit environment.  Each field
holds the part of the corresponding response body that the client code
inspects. -/
structure CloudEnv where
  /-- Field `sessionInfo` of the `accounts.login` response body. -/
  sessionInfo : Option GigyaSessionInfo
  /-- Field `id_token` of the `accounts.getJWT` response body. -/
  id_token : Option String
  /-- Field `access_token` of the cloud `/login` response body. -/
  access_token : Option String
  /-- Field `devices` of the `/registered-devices` response body, as the
  list of device uuids (the only part the claims inspect). -/
  devices : Option (List String)
  /-- Outcome of the POST issued by `setDeviceStatus` once it reaches the
  network: `ok` for a 200 response, `error` for a transport or status
  failure surfaced by `apiCall`. -/
  setCallResult : Except String Unit
deriving Repr

/-- Result of a stateful client operation: the value or thrown error, the
client state afterwards, and the outbound requests issued, in order. -/
abbrev OpResult (α : Type) : Type := Except String α × ClientState × List NetCall

/-- The private method `BlueAirAwsClient.login` from src/BlueAirAwsClient.ts
together with the two `GigyaApi` steps it invokes.  `getGigyaSession` throws
when the response has no `sessionInfo`; `getGigyaJWT` throws when the
response has no truthy `id_token`; `getAwsAccessToken` throws when the cloud
`/login` response has no truthy `access_token`.  Only after all three steps
succeed does `login` assign `last_login = Date.now()` and
`_authToken = accessToken`. -/
def login (env : CloudEnv) (now : Int) (st : ClientState) : OpResult Unit :=
  match env.sessionInfo with
  | none =>
    (.error "Gigya session error: sessionInfo in response", st, [.gigyaLogin])
  | some _si =>
    match truthyStr env.id_token with
    | none =>
      (.error "Gigya JWT error: no id_token in response", st, [.gigyaLogin, .gigyaJWT])
    | some _jwt =>
      match truthyStr env.access_token with
      | none =>
        (.error "AWS access token error", st, [.gigyaLogin, .gigyaJWT, .cloudLogin])
      | some accessToken =>
        (.ok (), { _authToken := some accessToken, last_login := now },
         [.gigyaLogin, .gigyaJWT, .cloudLogin])

/-- The private method `BlueAirAwsClient.checkTokenExpiration`: re-login
exactly when `LOGIN_EXPIRATION < Date.now() - this.last_login`, otherwise do
nothing. -/
def checkTokenExpiration (env : CloudEnv) (now : Int) (st : ClientState) :
    OpResult Unit :=
  if LOGIN_EXPIRATION < now - st.last_login then
    login env now st
  else
    (.ok (), st, [])

/-- The public method `BlueAirAwsClient.getDevices`: freshness gate, then a
GET to `/registered-devices`, then a `ProtocolError` if the response lacks a
`devices` field. -/
def getDevices (env : CloudEnv) (now : Int) (st : ClientState) :
    OpResult (List String) :=
  match checkTokenExpiration env now st with
  | (.error e, st1, calls) => (.error e, st1, calls)
  | (.ok _, st1, calls) =>
    match env.devices with
    | none => (.error "getDevices error: no devices in response", st1,
               calls ++ [.registeredDevices])
    | some ds => (.ok ds, st1, calls ++ [.registeredDevices])

/-- A JavaScript value as classified by `typeof`, restricted to the cases the
client code dispatches on. -/
inductive JsValue where
  | num (n : Rat)
  | bool (b : Bool)
  | str (s : String)
  | undef
deriving DecidableEq, Repr

/-- The JavaScript `typeof` operator on a `JsValue`. -/
def typeofStr : JsValue → String
  | .num _ => "number"
  | .bool _ => "boolean"
  | .str _ => "string"
  | .undef => "undefined"

/-- The `BlueAirSetStateBody` record from Consts.ts. -/
structure BlueAirSetStateBody where
  n : String
  v : Option Rat := none
  vb : Option Bool := none
deriving DecidableEq, Repr

/-- The public method `BlueAirAwsClient.setDeviceStatus` from
src/BlueAirAwsClient.ts: freshness gate first, then the value-type dispatch
building the body (`v` for a number, `vb` for a boolean, a thrown error for
anything else), then the POST to `/{uuid}/a/{state}`.  The method performs no
validation of `uuid` itself. -/
def setDeviceStatus (env : CloudEnv) (now : Int) (st : ClientState)
    (uuid : String) (state : String) (value : JsValue) : OpResult Unit :=
  match checkTokenExpiration env now st with
  | (.error e, st1, calls) => (.error e, st1, calls)
  | (.ok _, st1, calls) =>
    let body0 : BlueAirSetStateBody := { n := state }
    match value with
    | .num n =>
      let _body := { body0 with v := some n }
      match env.setCallResult with
      | .error e => (.error e, st1, calls ++ [.deviceSet uuid state])
      | .ok _ => (.ok (), st1, calls ++ [.deviceSet uuid state])
    | .bool b =>
      let _body := { body0 with vb := some b }
      match env.setCallResult with
      | .error e => (.error e, st1, calls ++ [.deviceSet uuid state])
      | .ok _ => (.ok (), st1, calls ++ [.deviceSet uuid state])
    | other =>
      (.error ("setDeviceStatus: unknown value type " ++ typeofStr other),
       st1, calls)

/-- One element of the `sensordata` array of a device status response
(Consts.ts, `BlueAirDeviceStatusResponse`). -/
structure SensorDataEntry where
  n : String
  t : Rat
  v : Rat
deriving DecidableEq, Repr

/-- One element of the `states` array of a device status response: the value
fields `v` and `vb` are optional in the source type. -/
structure StateEntry where
  n : String
  t : Rat
  v : Option Rat := none
  vb : Option Bool := none
deriving DecidableEq, Repr

/-- A state value recorded by the flattening: either the numeric `v` or the
boolean `vb` of an entry. -/
inductive StateVal where
  | num (n : Rat)
  | bool (b : Bool)
deriving DecidableEq, Repr

/-- The `BlueAirDeviceSensorDataMap` translation table from Consts.ts.
Absent codes yield `undefined`. -/
def BlueAirDeviceSensorDataMap (code : String) : Option String :=
  List.lookup code
    [("fsp0", "fanspeed"), ("hcho", "hcho"), ("h", "humidity"),
     ("pm1", "pm1"), ("pm10", "pm10"), ("pm2_5", "pm2_5"),
     ("t", "temperature"), ("tVOC", "voc")]

/-- The `sensordata.reduce` step of `BlueAirAwsClient.getDeviceStatus`:
translate each code through `BlueAirDeviceSensorDataMap` and assign
`acc[key] = sensor.v` when the key is defined (all table values are nonempty
strings, hence truthy); otherwise leave the accumulator untouched. -/
def flattenSensorData (entries : List SensorDataEntry) : List (String × Rat) :=
  entries.foldl
    (fun acc s =>
      match BlueAirDeviceSensorDataMap s.n with
      | some key => setKey acc key s.v
      | none => acc)
    []

/-- The `states.reduce` step of `BlueAirAwsClient.getDeviceStatus`: assign
the numeric `v` when it is defined, otherwise the boolean `vb` when it is
defined, otherwise log and skip the entry. -/
def flattenStates (entries : List StateEntry) : List (String × StateVal) :=
  entries.foldl
    (fun acc s =>
      match s.v with
      | some x => setKey acc s.n (.num x)
      | none =>
        match s.vb with
        | some b => setKey acc s.n (.bool b)
        | none => acc)
    []

/-- The observable outcome of one network attempt inside
`BlueAirAwsClient.apiCall`: either an HTTP response arrived (with status,
status text and body), or the transport failed, where `isCancel` records
whether `axios.isCancel(error)` would hold (an abort by the timeout
controller). -/
inductive AttemptResult (α : Type) where
  | response (status : Nat) (statusText : String) (body : α)
  | failure (isCancel : Bool) (errMsg : String)
deriving DecidableEq, Repr

/-- Classification of one attempt by the `try` block of `apiCall`: a 200
response returns its body; a response with any other status throws the
status error (never a cancellation); a transport failure carries its
cancellation flag. -/
def attemptOutcome {α : Type} : AttemptResult α → Except (Bool × String) α
  | .response status statusText body =>
    if status == 200 then
      .ok body
    else
      .error (false, "API call error with status " ++ toString status ++ ": " ++ statusText)
  | .failure c m => .error (c, m)

/-- The error message built by `apiCall` once retries are exhausted, from the
frame-local `retries` value (which is `0` in the throwing frame, so the
reported count is always `3 - 0`). -/
def exhaustMsg (isCancel : Bool) (errMsg : String) (retries : Nat) : String :=
  if isCancel then
    "API call failed after " ++ toString (3 - retries) ++ " retries with timeout."
  else
    "API call failed after " ++ toString (3 - retries) ++ " retries with error: " ++ errMsg

/-- The private method `BlueAirAwsClient.apiCall` from
src/BlueAirAwsClient.ts, instrumented with the number of attempts performed.
`env j` is the outcome the network would produce for attempt number `j`
(0-based); the recursion `apiCall(url, data, method, headers, retries - 1)`
on failure while `retries > 0` becomes the structural recursion on
`retries`. -/
def apiCall {α : Type} (env : Nat → AttemptResult α) (i : Nat) (retries : Nat) :
    Except String α × Nat :=
  match attemptOutcome (env i) with
  | .ok b => (.ok b, 1)
  | .error cm =>
    match retries with
    | r + 1 =>
      let rest := apiCall env (i + 1) r
      (rest.1, rest.2 + 1)
    | 0 => (.error (exhaustMsg cm.1 cm.2 0), 1)

/-- Environment for `initialize`: the optional explicit region argument is a
parameter; the outcome of the `determineEndpoint()` call (a network
round-trip plus `extractAwsRegion` and `mapAwsRegionToRegion`, wrapped in the
`retry` helper) is supplied as its resulting value or thrown error. -/
structure InitEnv where
  determineEndpoint : Except String Region
deriving Repr

/-- The body of `BlueAirAwsClient.initialize` from src/BlueAirAwsClient.ts,
without the surrounding `try`/`catch`: resolve the region (explicit argument
or `determineEndpoint()`), look up `RegionMap[region]` (defined and truthy
for all five regions, so the `!regionCode` guard never fires), then search
`Object.values(AWS_CONFIG)` for an entry whose `regionCode` property equals
the code — the `AWSConfigValue` records have no such property, so the
comparison is `undefined === code` — and throw `No config found` when the
search fails; otherwise construct the Gigya client and run `login()`. -/
def initClientBody (ienv : InitEnv) (env : CloudEnv) (now : Int)
    (region : Option Region) (st : ClientState) :
    Except String (ClientState × List NetCall) :=
  match (match region with
         | some r => Except.ok r
         | none => ienv.determineEndpoint) with
  | .error e => .error e
  | .ok r =>
    let regionCode := RegionMap r
    match AWS_CONFIG_entries.find? (fun p => jsStrictEqStr (regionCodeField p.2) regionCode) with
    | none => .error ("No config found for region: " ++ regionName r)
    | some _config =>
      match login env now st with
      | (.ok _, st1, calls) => .ok (st1, calls)
      | (.error e, _, _) => .error e

/-- The public method `BlueAirAwsClient.initialize`: the whole body runs
inside `try`/`catch`; any thrown error is caught and turned into the return
value `false`, success returns `true`. -/
def initClient (ienv : InitEnv) (env : CloudEnv) (now : Int)
    (region : Option Region) (st : ClientState) : Bool × ClientState :=
  match initClientBody ienv env now region st with
  | .ok (st1, _calls) => (true, st1)
  | .error _ => (false, st)

/-- Decidable equality for `Except`, needed to evaluate concrete runs. -/
instance {ε α : Type} [DecidableEq ε] [DecidableEq α] : DecidableEq (Except ε α)
  | .ok x, .ok y =>
    if h : x = y then .isTrue (by rw [h]) else .isFalse (fun hc => by cases hc; exact h rfl)
  | .ok _, .error _ => .isFalse (fun hc => Except.noConfusion hc)
  | .error _, .ok _ => .isFalse (fun hc => Except.noConfusion hc)
  | .error e, .error f =>
    if h : e = f then .isTrue (by rw [h]) else .isFalse (fun hc => by cases hc; exact h rfl)

/-- A configuration entry is usable when it exists and its AWS part carries a
nonempty REST identifier and a nonempty transport region. -/
def usableEntry (o : Option APIConfigEntry) : Bool :=
  match o with
  | some e =>
    match e.awsConfig with
    | some a => a.restApiId != "" && a.awsRegion != ""
    | none => false
  | none => false

/-- The environment lets the three login steps succeed: `sessionInfo` is
present and the two token fields are truthy. -/
def loginEnvOk (env : CloudEnv) : Bool :=
  env.sessionInfo.isSome && (truthyStr env.id_token).isSome &&
    (truthyStr env.access_token).isSome

/-- A concrete environment in which every response is well formed. -/
def envAllOk : CloudEnv :=
  { sessionInfo := some { sessionToken := "s-token", sessionSecret := "s-secret" },
    id_token := some "jwt-token",
    access_token := some "access-token",
    devices := some ["uuid-1"],
    setCallResult := .ok () }

/-- A concrete environment whose identity-provider login response lacks
`sessionInfo`. -/
def envNoSession : CloudEnv :=
  { envAllOk with sessionInfo := none }

/-- A concrete `initialize` environment whose endpoint determination throws. -/
def ienvFail : InitEnv :=
  { determineEndpoint := .error "Failed to determine endpoint" }

/-- The client state right after construction: `_authToken = null`,
`last_login = 0`. -/
def st0 : ClientState :=
  { _authToken := none, last_login := 0 }

/-- A client state holding a previously stored token and timestamp. -/
def stOld : ClientState :=
  { _authToken := some "stale-token", last_login := 5 }

/-- A network that fails every attempt with a non-cancellation transport
error. -/
def envBoom : Nat → AttemptResult Unit :=
  fun _ => .failure false "boom"

/-- A network that fails every attempt with an abort (cancellation). -/
def envCancel : Nat → AttemptResult Unit :=
  fun _ => .failure true "canceled"

/-- Helper: the freshness gate itself only ever issues login-sequence
requests, never a device request. -/
theorem checkTokenExpiration_calls_sub (env : CloudEnv) (now : Int) (st : ClientState) :
    (checkTokenExpiration env now st).2.2 ⊆
      [NetCall.gigyaLogin, NetCall.gigyaJWT, NetCall.cloudLogin] := by
  unfold checkTokenExpiration login
  split
  · cases env.sessionInfo <;>
      cases truthyStr env.id_token <;>
      cases truthyStr env.access_token <;>
      simp [List.subset_def]
  · simp

/-- C1 (amended): the freshness gate performs no login when
`now - last_login` is at most 24 hours — the operation then issues only its
own request — and when `now - last_login` strictly exceeds the 24-hour
window it performs exactly one full login sequence (identity-provider
session, JWT exchange, cloud access-token request) before the operation
request.  The source condition is the strict comparison
`LOGIN_EXPIRATION < now - last_login`, so at exactly 24 hours no login
happens, contrary to the claim as stated. -/
theorem c1_freshness_gate (env : CloudEnv) (now : Int) (st : ClientState) :
    (now - st.last_login ≤ LOGIN_EXPIRATION →
      checkTokenExpiration env now st = (.ok (), st, []) ∧
      (getDevices env now st).2.2 = [NetCall.registeredDevices]) ∧
    (LOGIN_EXPIRATION < now - st.last_login →
      checkTokenExpiration env now st = login env now st ∧
      (loginEnvOk env = true →
        (getDevices env now st).2.2 =
          [NetCall.gigyaLogin, NetCall.gigyaJWT, NetCall.cloudLogin,
           NetCall.registeredDevices])) := by
  constructor
  · intro h
    have hc : ¬ LOGIN_EXPIRATION < now - st.last_login := not_lt.mpr h
    constructor
    · simp [checkTokenExpiration, hc]
    · cases hd : env.devices <;> simp [getDevices, checkTokenExpiration, hc, hd]
  · intro h
    constructor
    · simp [checkTokenExpiration, h]
    · intro hok
      simp only [loginEnvOk, Bool.and_eq_true, Option.isSome_iff_exists] at hok
      obtain ⟨⟨⟨si, hsi⟩, ⟨jwt, hjwt⟩⟩, ⟨tok, htok⟩⟩ := hok
      cases hd : env.devices <;>
        simp [getDevices, checkTokenExpiration, h, login, hsi, hjwt, htok, hd]

/-- C1 witness: the first branch at a fresh state, the second at a stale
state with a well-formed environment. -/
theorem c1_freshness_gate_witness :
    ((100 : Int) - stOld.last_login ≤ LOGIN_EXPIRATION ∧
      (getDevices envAllOk 100 stOld).2.2 = [NetCall.registeredDevices]) ∧
    (LOGIN_EXPIRATION < (2 * LOGIN_EXPIRATION : Int) - st0.last_login ∧
      loginEnvOk envAllOk = true ∧
      (getDevices envAllOk (2 * LOGIN_EXPIRATION) st0).2.2 =
        [NetCall.gigyaLogin, NetCall.gigyaJWT, NetCall.cloudLogin,
         NetCall.registeredDevices]) :=
  ⟨⟨by decide, ((c1_freshness_gate envAllOk 100 stOld).1 (by decide)).2⟩,
   ⟨by decide, by decide,
    ((c1_freshness_gate envAllOk (2 * LOGIN_EXPIRATION) st0).2 (by decide)).2 (by decide)⟩⟩

/-- C1 counterexample: at exactly `now - last_login = LOGIN_EXPIRATION` the
24-hour window has elapsed in the sense of the claim (`>=`), yet the gate
performs no login and the operation issues only its own request. -/
theorem c1_counterexample :
    LOGIN_EXPIRATION ≤ (86400000 : Int) - st0.last_login ∧
    checkTokenExpiration envAllOk 86400000 st0 = (.ok (), st0, []) ∧
    (getDevices envAllOk 86400000 st0).2.2 = [NetCall.registeredDevices] := by
  decide

/-- C2: if any step of the login sequence fails (missing `sessionInfo`,
missing `id_token`, or a cloud `/login` response without `access_token`),
`login` throws and the stored `_authToken` and `last_login` keep exactly the
values they had before the call: the two assignments happen only after all
three steps succeed. -/
theorem c2_login_failure_preserves_state (env : CloudEnv) (now : Int)
    (st : ClientState) (e : String)
    (h : (login env now st).1 = .error e) :
    (login env now st).2.1 = st := by
  unfold login at h ⊢
  cases hsi : env.sessionInfo <;>
    cases hjwt : truthyStr env.id_token <;>
    cases hacc : truthyStr env.access_token <;>
    simp_all

/-- C2 witness: a failing identity-provider login leaves a previously stored
token and timestamp untouched. -/
theorem c2_login_failure_preserves_state_witness :
    (login envNoSession 999 stOld).1 =
      .error "Gigya session error: sessionInfo in response" ∧
    (login envNoSession 999 stOld).2.1 = stOld :=
  ⟨by decide,
   c2_login_failure_preserves_state envNoSession 999 stOld
     "Gigya session error: sessionInfo in response" (by decide)⟩

/-- Helper: when the first `retries + 1` attempts starting at index `i` all
fail, `apiCall` performs exactly `retries + 1` attempts and throws the
exhaustion message built from the last failure, with the frame-local
`retries` value `0`. -/
theorem apiCall_all_fail {α : Type} (env : Nat → AttemptResult α) :
    ∀ (retries i : Nat),
      (∀ j, j ≤ retries → ∃ cm, attemptOutcome (env (i + j)) = .error cm) →
      ∃ cm, attemptOutcome (env (i + retries)) = .error cm ∧
        apiCall env i retries = (.error (exhaustMsg cm.1 cm.2 0), retries + 1) := by
  intro retries
  induction retries with
  | zero =>
    intro i h
    obtain ⟨cm, hcm⟩ := h 0 (Nat.le_refl 0)
    rw [Nat.add_zero] at hcm
    exact ⟨cm, hcm, by simp [apiCall, hcm]⟩
  | succ r ih =>
    intro i h
    obtain ⟨cm0, hcm0⟩ := h 0 (Nat.zero_le _)
    rw [Nat.add_zero] at hcm0
    obtain ⟨cm, hcm, happ⟩ := ih (i + 1) (fun j hj => by
      have := h (j + 1) (Nat.succ_le_succ hj)
      simpa [Nat.add_assoc, Nat.add_comm 1 j] using this)
    refine ⟨cm, ?_, ?_⟩
    · simpa [Nat.add_assoc, Nat.add_comm 1 r] using hcm
    · simp [apiCall, hcm0, happ]

/-- Helper: the exhaustion message of a cancelled final attempt is the
constant timeout message, independent of the attempt error string. -/
theorem exhaustMsg_timeout_eq (m : String) :
    exhaustMsg true m 0 = "API call failed after 3 retries with timeout." := by
  have hm : exhaustMsg true m 0
      = "API call failed after " ++ toString (3 - 0 : Nat) ++ " retries with timeout." := rfl
  rw [hm]
  decide

/-- Helper: the exhaustion message of a non-cancelled final attempt is the
error template applied to the attempt error string. -/
theorem exhaustMsg_error_eq (m : String) :
    exhaustMsg false m 0 = "API call failed after 3 retries with error: " ++ m := by
  unfold exhaustMsg
  have h3 : toString (3 - 0 : Nat) = "3" := by decide
  simp [h3]

/-- Helper: the timeout exhaustion message differs from every non-timeout
exhaustion message, whatever the underlying error string: the two templates
disagree at character position 37. -/
theorem exhaustMsg_timeout_ne (m mq : String) :
    exhaustMsg true m 0 ≠ exhaustMsg false mq 0 := by
  intro h
  rw [exhaustMsg_timeout_eq, exhaustMsg_error_eq] at h
  have hdata : ("API call failed after 3 retries with timeout." : String).data
      = ("API call failed after 3 retries with error: " : String).data ++ mq.data :=
    congrArg String.data h
  have h37 : (("API call failed after 3 retries with timeout." : String).data)[37]?
      = (("API call failed after 3 retries with error: " : String).data ++ mq.data)[37]? := by
    rw [hdata]
  rw [List.getElem?_append_left (by decide)] at h37
  exact absurd h37 (by decide)

/-- C3 (amended): when every attempt fails, `apiCall` retries exactly
`retries` times after the initial attempt (so `retries + 1` attempts in
total) and then throws; the thrown message always reports `3` retries — the
count expression `3 - retries` is evaluated in the frame where `retries` has
reached `0` — so it states the number of retries actually performed only
for the default `retries = 3`; the message thrown when the final failure was
an abort/timeout cancellation differs from the message thrown for every
other transport or non-200 failure. -/
theorem c3_retry_exhaustion {α : Type} (env : Nat → AttemptResult α)
    (retries : Nat)
    (h : ∀ j, j ≤ retries → ∃ cm, attemptOutcome (env j) = .error cm) :
    (apiCall env 0 retries).2 = retries + 1 ∧
    (∀ m, attemptOutcome (env retries) = .error (true, m) →
      (apiCall env 0 retries).1 =
        .error "API call failed after 3 retries with timeout.") ∧
    (∀ m, attemptOutcome (env retries) = .error (false, m) →
      (apiCall env 0 retries).1 =
        .error ("API call failed after 3 retries with error: " ++ m)) ∧
    (∀ m mq, exhaustMsg true m 0 ≠ exhaustMsg false mq 0) := by
  obtain ⟨cm, hcm, happ⟩ := apiCall_all_fail env retries 0 (by simpa using h)
  rw [Nat.zero_add] at hcm
  refine ⟨by rw [happ], ?_, ?_, exhaustMsg_timeout_ne⟩
  · intro m hm
    rw [hcm] at hm
    cases hm
    rw [happ, exhaustMsg_timeout_eq]
  · intro m hm
    rw [hcm] at hm
    cases hm
    rw [happ, exhaustMsg_error_eq]

/-- C3 witness: with the default `retries = 3` and a network that fails every
attempt, `apiCall` performs 4 attempts and reports 3 retries; the
cancellation run produces the distinguishable timeout message. -/
theorem c3_retry_exhaustion_witness :
    ((∀ j : Nat, j ≤ 3 → ∃ cm, attemptOutcome (envBoom j) = .error cm) ∧
      (apiCall envBoom 0 3).2 = 4 ∧
      (apiCall envBoom 0 3).1 =
        .error ("API call failed after 3 retries with error: " ++ "boom")) ∧
    (apiCall envCancel 0 3).1 =
      .error "API call failed after 3 retries with timeout." :=
  ⟨⟨fun _ _ => ⟨(false, "boom"), rfl⟩,
    (c3_retry_exhaustion envBoom 3 (fun _ _ => ⟨(false, "boom"), rfl⟩)).1,
    (c3_retry_exhaustion envBoom 3 (fun _ _ => ⟨(false, "boom"), rfl⟩)).2.2.1 "boom" rfl⟩,
   (c3_retry_exhaustion envCancel 3 (fun _ _ => ⟨(true, "canceled"), rfl⟩)).2.1 "canceled" rfl⟩

/-- C3 counterexample: a call with `retries = 2` whose attempts all fail
performs exactly 2 retries after the initial attempt, yet the thrown message
reports 3 retries, so the message does not state the number of retries
performed. -/
theorem c3_counterexample :
    (apiCall envBoom 0 2).2 = 2 + 1 ∧
    (apiCall envBoom 0 2).1 =
      .error "API call failed after 3 retries with error: boom" ∧
    ("API call failed after 3 retries with error: boom" : String) ≠
      "API call failed after 2 retries with error: boom" := by
  decide

/-- C4 (amended): `setDeviceStatus` performs no uuid validation at all — the
uuid validation quoted by the claim lives in the typed setters — and it
rejects a value that is neither a number nor a boolean with a validation
error before any device request is issued; but the freshness gate has
already run at that point, so login requests may precede the rejection.
This theorem states the part that holds: for a non-number non-boolean value
no device request is ever issued, and when the gate succeeds the result is
exactly the validation error. -/
theorem c4_set_value_validation (env : CloudEnv) (now : Int) (st : ClientState)
    (uuid : String) (state : String) (v : JsValue)
    (hn : typeofStr v ≠ "number") (hb : typeofStr v ≠ "boolean") :
    (∀ u s, NetCall.deviceSet u s ∉ (setDeviceStatus env now st uuid state v).2.2) ∧
    ((checkTokenExpiration env now st).1 = .ok () →
      (setDeviceStatus env now st uuid state v).1 =
        .error ("setDeviceStatus: unknown value type " ++ typeofStr v)) := by
  have hsub := checkTokenExpiration_calls_sub env now st
  rcases hg : checkTokenExpiration env now st with ⟨r, st1, calls⟩
  rw [hg] at hsub
  cases v
  case num n => exact absurd rfl hn
  case bool b => exact absurd rfl hb
  case str s =>
    refine ⟨fun u s2 hmem => ?_, fun hok => ?_⟩
    · unfold setDeviceStatus at hmem
      rw [hg] at hmem
      cases r <;> exact absurd (hsub hmem) (by simp)
    · have hr : r = .ok () := hok
      simp only [setDeviceStatus]
      rw [hg, hr]
  case undef =>
    refine ⟨fun u s2 hmem => ?_, fun hok => ?_⟩
    · unfold setDeviceStatus at hmem
      rw [hg] at hmem
      cases r <;> exact absurd (hsub hmem) (by simp)
    · have hr : r = .ok () := hok
      simp only [setDeviceStatus]
      rw [hg, hr]

/-- C4 witness: with a fresh token the gate issues nothing and a string
value is rejected with the validation error, no device request issued. -/
theorem c4_set_value_validation_witness :
    (typeofStr (JsValue.str "on") ≠ "number" ∧
      typeofStr (JsValue.str "on") ≠ "boolean" ∧
      (checkTokenExpiration envAllOk 1 st0).1 = .ok ()) ∧
    (NetCall.deviceSet "device-1" "fanspeed" ∉
      (setDeviceStatus envAllOk 1 st0 "device-1" "fanspeed" (JsValue.str "on")).2.2) ∧
    (setDeviceStatus envAllOk 1 st0 "device-1" "fanspeed" (JsValue.str "on")).1 =
      .error ("setDeviceStatus: unknown value type " ++ typeofStr (JsValue.str "on")) :=
  ⟨⟨by decide, by decide, by decide⟩,
   (c4_set_value_validation envAllOk 1 st0 "device-1" "fanspeed" (JsValue.str "on")
      (by decide) (by decide)).1 "device-1" "fanspeed",
   (c4_set_value_validation envAllOk 1 st0 "device-1" "fanspeed" (JsValue.str "on")
      (by decide) (by decide)).2 (by decide)⟩

/-- C4 counterexample: called with an empty uuid and a stale token,
`setDeviceStatus` does not reject the uuid — a numeric value goes through
and a device request for the empty uuid is issued — and when it does reject
a bad value, three login requests have already been issued by the freshness
gate, so the rejection is not free of HTTP calls. -/
theorem c4_counterexample :
    (setDeviceStatus envAllOk (2 * LOGIN_EXPIRATION) st0 "" "fanspeed"
        (JsValue.str "on")).1 =
      .error "setDeviceStatus: unknown value type string" ∧
    (setDeviceStatus envAllOk (2 * LOGIN_EXPIRATION) st0 "" "fanspeed"
        (JsValue.str "on")).2.2 =
      [NetCall.gigyaLogin, NetCall.gigyaJWT, NetCall.cloudLogin] ∧
    (setDeviceStatus envAllOk (2 * LOGIN_EXPIRATION) st0 "" "fanspeed"
        (JsValue.num 50)).1 = .ok () ∧
    (setDeviceStatus envAllOk (2 * LOGIN_EXPIRATION) st0 "" "fanspeed"
        (JsValue.num 50)).2.2 =
      [NetCall.gigyaLogin, NetCall.gigyaJWT, NetCall.cloudLogin,
       NetCall.deviceSet "" "fanspeed"] := by
  decide

/-- C5: evaluation of `mapAwsRegionToRegion` as it stands in
src/BlueAirAwsClient.ts at every endpoint token named by the claim and by
the test suite.  The method indexes `AWS_CONFIG` by its two-letter keys and
then compares against the nonexistent `regionCode` property, so every one of
the six tokens the repository tests expect to map to a `Region` instead
throws. -/
theorem c5_code_evaluation :
    mapAwsRegionToRegion "us-east-1" =
      .error "No region mapping found for AWS region: us-east-1" ∧
    mapAwsRegionToRegion "us-east-2" =
      .error "No region mapping found for AWS region: us-east-2" ∧
    mapAwsRegionToRegion "eu-west-1" =
      .error "No region mapping found for AWS region: eu-west-1" ∧
    mapAwsRegionToRegion "cn-north-1" =
      .error "No region mapping found for AWS region: cn-north-1" ∧
    mapAwsRegionToRegion "ap-southeast-2" =
      .error "No region mapping found for AWS region: ap-southeast-2" ∧
    mapAwsRegionToRegion "eu-central-1" =
      .error "No region mapping found for AWS region: eu-central-1" ∧
    (∀ r : Region, mapAwsRegionToRegion (RegionMap r) =
      .error ("Unable to map AWS region to Region enum: " ++ RegionMap r)) := by
  refine ⟨by decide, by decide, by decide, by decide, by decide, by decide, ?_⟩
  intro r
  cases r <;> decide

/-- Helper: a lookup on an association list none of whose keys equals the
probe returns nothing. -/
theorem lookup_none_of_not_mem {α : Type} :
    ∀ (l : List (String × α)) (s : String),
      (∀ p ∈ l, p.1 ≠ s) → l.lookup s = none
  | [], _, _ => rfl
  | (k, v) :: t, s, h => by
    have hk : k ≠ s := h (k, v) (List.mem_cons_self _ _)
    have hb : (s == k) = false := beq_eq_false_iff_ne.mpr (fun q => hk q.symm)
    simp only [List.lookup, hb]
    exact lookup_none_of_not_mem t s (fun p hp => h p (List.mem_cons_of_mem _ hp))

/-- C6: for each of the five `Region` values the `BLUEAIR_CONFIG` lookup at
its region code returns an entry whose AWS part has a nonempty REST API
identifier and a nonempty transport region, and the table holds exactly one
entry per region code; for any key outside the five codes the lookup yields
nothing, which the consumers turn into the fatal configuration error. -/
theorem c6_config_table :
    (∀ r : Region,
      usableEntry (BLUEAIR_CONFIG (RegionMap r)) = true ∧
      (BLUEAIR_CONFIG_entries.filter (fun p => p.1 == RegionMap r)).length = 1) ∧
    (∀ s : String, s ≠ "us" → s ≠ "cn" → s ≠ "eu" → s ≠ "au" → s ≠ "ru" →
      BLUEAIR_CONFIG s = none) := by
  constructor
  · intro r
    cases r <;> exact ⟨by decide, by decide⟩
  · intro s h1 h2 h3 h4 h5
    have hkeys : BLUEAIR_CONFIG_entries.map Prod.fst = ["us", "cn", "eu", "au", "ru"] := by
      decide
    apply lookup_none_of_not_mem
    intro p hp
    have hmem : p.1 ∈ BLUEAIR_CONFIG_entries.map Prod.fst :=
      List.mem_map_of_mem Prod.fst hp
    rw [hkeys] at hmem
    simp only [List.mem_cons, List.mem_singleton, List.not_mem_nil, or_false] at hmem
    rcases hmem with h | h | h | h | h <;> (rw [h]; exact Ne.symm (by assumption))

/-- C6 witness: the lookup succeeds with usable data for the EU region and
fails for a key outside the five region codes. -/
theorem c6_config_table_witness :
    usableEntry (BLUEAIR_CONFIG (RegionMap Region.EU)) = true ∧
    BLUEAIR_CONFIG "us-east-1" = none :=
  ⟨(c6_config_table.1 Region.EU).1,
   c6_config_table.2 "us-east-1" (by decide) (by decide) (by decide) (by decide)
     (by decide)⟩

/-- C7: the status flattening maps the sensordata entry with code `t` to the
`temperature` key with its numeric value, maps the states entry `childlock`
with boolean `vb` to the `childlock` key with that boolean, and an entry
whose code is not in `BlueAirDeviceSensorDataMap` contributes nothing at all
to the produced sensor data — the output is identical to the output without
the entry, so the key is entirely absent, and no error is raised since the
flattening is total. -/
theorem c7_status_flattening :
    (∀ (t v : Rat),
      (flattenSensorData [{ n := "t", t := t, v := v }]).lookup "temperature"
        = some v) ∧
    (∀ (t : Rat) (b : Bool),
      (flattenStates [{ n := "childlock", t := t, vb := some b }]).lookup "childlock"
        = some (.bool b)) ∧
    (∀ (l1 l2 : List SensorDataEntry) (e : SensorDataEntry),
      BlueAirDeviceSensorDataMap e.n = none →
      flattenSensorData (l1 ++ e :: l2) = flattenSensorData (l1 ++ l2)) := by
  refine ⟨fun t v => rfl, fun t b => rfl, fun l1 l2 e h => ?_⟩
  unfold flattenSensorData
  simp only [List.foldl_append, List.foldl_cons]
  simp [h]

/-- C7 witness: the two concrete mappings of the claim, and the unrecognized
code `xyz` dropped from a record that also carries a temperature reading. -/
theorem c7_status_flattening_witness :
    (flattenSensorData [{ n := "t", t := 0, v := (21.5 : Rat) }]).lookup "temperature"
      = some (21.5 : Rat) ∧
    (flattenStates [{ n := "childlock", t := 0, vb := some true }]).lookup "childlock"
      = some (.bool true) ∧
    BlueAirDeviceSensorDataMap "xyz" = none ∧
    flattenSensorData
        ([] ++ { n := "xyz", t := 0, v := (5 : Rat) } ::
          [{ n := "t", t := 0, v := (21.5 : Rat) }])
      = flattenSensorData ([] ++ [{ n := "t", t := 0, v := (21.5 : Rat) }]) :=
  ⟨c7_status_flattening.1 0 21.5,
   c7_status_flattening.2.1 0 true,
   by decide,
   c7_status_flattening.2.2 [] [{ n := "t", t := 0, v := (21.5 : Rat) }]
     { n := "xyz", t := 0, v := (5 : Rat) } (by decide)⟩

/-- C10: in the state flattening, an entry carrying both a defined numeric
`v` and a defined boolean `vb` records the numeric `v` — the `v` branch is
tested first, so `vb` is ignored — and an entry with neither field defined
contributes nothing to the mapping and raises no error. -/
theorem c10_state_value_precedence :
    (∀ (l : List StateEntry) (e : StateEntry) (x : Rat) (b : Bool),
      e.v = some x → e.vb = some b →
      flattenStates (l ++ [e]) = setKey (flattenStates l) e.n (.num x)) ∧
    (∀ (l1 l2 : List StateEntry) (e : StateEntry),
      e.v = none → e.vb = none →
      flattenStates (l1 ++ e :: l2) = flattenStates (l1 ++ l2)) := by
  constructor
  · intro l e x b hv hvb
    unfold flattenStates
    rw [List.foldl_append]
    simp [hv]
  · intro l1 l2 e hv hvb
    unfold flattenStates
    simp only [List.foldl_append, List.foldl_cons]
    simp [hv, hvb]

/-- C10 witness: an entry with `v = 2` and `vb = true` records the number 2
under its name, and an entry with neither field is dropped. -/
theorem c10_state_value_precedence_witness :
    (({ n := "fanspeed", t := 0, v := some 2, vb := some true } : StateEntry).v
        = some 2 ∧
      ({ n := "fanspeed", t := 0, v := some 2, vb := some true } : StateEntry).vb
        = some true ∧
      flattenStates ([] ++ [{ n := "fanspeed", t := 0, v := some 2, vb := some true }])
        = setKey (flattenStates [])
            ({ n := "fanspeed", t := 0, v := some 2, vb := some true } : StateEntry).n
            (.num 2)) ∧
    flattenStates ([] ++ ({ n := "mystery", t := 0 } : StateEntry) ::
        [{ n := "childlock", t := 0, vb := some true }])
      = flattenStates ([] ++ [{ n := "childlock", t := 0, vb := some true }]) :=
  ⟨⟨rfl, rfl,
    c10_state_value_precedence.1 []
      { n := "fanspeed", t := 0, v := some 2, vb := some true } 2 true rfl rfl⟩,
   c10_state_value_precedence.2 [] [{ n := "childlock", t := 0, vb := some true }]
     { n := "mystery", t := 0 } rfl rfl⟩

/-- Helper: the configuration search inside `initialize` compares the absent
`regionCode` property of each `AWS_CONFIG` value with the region code, so it
finds no entry and the body always throws — either the propagated endpoint
determination error or `No config found`. -/
theorem initClientBody_always_fails (ienv : InitEnv) (env : CloudEnv)
    (now : Int) (region : Option Region) (st : ClientState) :
    ∃ e, initClientBody ienv env now region st = .error e := by
  cases region with
  | some r =>
    refine ⟨"No config found for region: " ++ regionName r, ?_⟩
    simp [initClientBody, AWS_CONFIG_entries, List.find?, jsStrictEqStr,
      regionCodeField]
  | none =>
    cases hd : ienv.determineEndpoint with
    | error e => exact ⟨e, by simp [initClientBody, hd]⟩
    | ok r =>
      refine ⟨"No config found for region: " ++ regionName r, ?_⟩
      simp [initClientBody, hd, AWS_CONFIG_entries, List.find?, jsStrictEqStr,
        regionCodeField]

/-- C8: `initialize` never propagates an internally raised error — every
thrown error (endpoint resolution failure, missing region configuration,
login failure) is caught and reported as the return value `false` with the
state unchanged — and it returns `true` only when the body, whose final step
is the full login sequence, completed successfully.  In this source variant
the configuration search always fails (see `initClientBody_always_fails`),
so the success case is in fact unreachable and the claim holds a
fortiori. -/
theorem c8_initialize_reports_boolean (ienv : InitEnv) (env : CloudEnv)
    (now : Int) (region : Option Region) (st : ClientState) :
    (∀ e, initClientBody ienv env now region st = .error e →
      initClient ienv env now region st = (false, st)) ∧
    ((initClient ienv env now region st).1 = true →
      (login env now st).1 = .ok ()) := by
  constructor
  · intro e he
    simp [initClient, he]
  · intro htrue
    obtain ⟨e, he⟩ := initClientBody_always_fails ienv env now region st
    simp [initClient, he] at htrue

/-- C8 witness: a failed endpoint determination is caught and reported as
`false` with the constructed state untouched. -/
theorem c8_initialize_reports_boolean_witness :
    initClientBody ienvFail envAllOk 0 none st0 =
      .error "Failed to determine endpoint" ∧
    initClient ienvFail envAllOk 0 none st0 = (false, st0) :=
  ⟨by decide,
   (c8_initialize_reports_boolean ienvFail envAllOk 0 none st0).1
     "Failed to determine endpoint" (by decide)⟩

end BlueAir
